import Mathlib

/-!
Verification of the TCG event-log decoder in
`src/common/python/cctrusted_base/eventlog.py` (class `TcgEventLog`).

Byte buffers are modelled as `List Nat` (each element one byte).  Python
exceptions become explicit error values threaded through the state, and the
object's mutable fields become a record passed and returned explicitly.
-/

set_option autoImplicit false
set_option maxRecDepth 100000

namespace EvidenceApi

/-- Modelled from the spec: §4.1 Cursor Reader (`BinaryBlob.get_bytes`, not
under `src/`).  Bounds-checked slice read: returns the `count` bytes starting
at `pos` together with the offset right after them, or `none` (the
OutOfBounds error of §7) when the read would pass the buffer end. -/
def getBytes (data : List Nat) (pos count : Nat) : Option (List Nat × Nat) :=
  if pos + count ≤ data.length then some ((data.drop pos).take count, pos + count)
  else none

/-- Little-endian value of a byte list (first byte least significant). -/
def leNat (bs : List Nat) : Nat :=
  bs.foldr (fun b acc => b + 256 * acc) 0

/-- Modelled from the spec: §4.1 Cursor Reader (`BinaryBlob.get_uint8`). -/
def getUint8 (data : List Nat) (pos : Nat) : Option (Nat × Nat) :=
  (getBytes data pos 1).map (fun r => (leNat r.1, r.2))

/-- Modelled from the spec: §4.1 Cursor Reader (`BinaryBlob.get_uint16`),
little-endian. -/
def getUint16 (data : List Nat) (pos : Nat) : Option (Nat × Nat) :=
  (getBytes data pos 2).map (fun r => (leNat r.1, r.2))

/-- Modelled from the spec: §4.1 Cursor Reader (`BinaryBlob.get_uint32`),
little-endian. -/
def getUint32 (data : List Nat) (pos : Nat) : Option (Nat × Nat) :=
  (getBytes data pos 4).map (fun r => (leNat r.1, r.2))

/-- Modelled from the spec: the reserved "no-action" event type
(`TcgEventType.EV_NO_ACTION` from `cctrusted_base.tcg`, not under `src/`;
value 0x3 in the TCG profile). -/
def EV_NO_ACTION : Nat := 3

/-- Modelled from the spec: §3 DigestAlgorithmSize
(`TcgEfiSpecIdEventAlgorithmSize` from `cctrusted_base.tcg`). -/
structure TcgEfiSpecIdEventAlgorithmSize where
  algo_id : Nat
  digest_size : Nat
deriving DecidableEq

/-- Modelled from the spec: §3 Digest (`TcgDigest` from `cctrusted_base.tcg`). -/
structure TcgDigest where
  alg_id : Nat
  digest : List Nat
deriving DecidableEq

/-- Modelled from the spec: §3 MeasurementRecord (`TcgImrEventLogEntry` from
`cctrusted_base.tcg`); `imr_index` stores declared register − 1. -/
structure TcgImrEventLogEntry where
  imr_index : Int
  event_type : Nat
  digests : List TcgDigest
  event_size : Nat
  event : List Nat
deriving DecidableEq

/-- Modelled from the spec: §3 HeaderRecord (`TcgPcClientImrEvent` from
`cctrusted_base.tcg`). -/
structure TcgPcClientImrEvent where
  imr_index : Int
  event_type : Nat
  digest : List Nat
  event_size : Nat
  event : List Nat
deriving DecidableEq

/-- Modelled from the spec: §3 SpecHeader (`TcgEfiSpecIdEvent` from
`cctrusted_base.tcg`), the algorithm registry carrier. -/
structure TcgEfiSpecIdEvent where
  signature : List Nat
  platform_cls : Nat
  version_minor : Nat
  version_major : Nat
  errata : Nat
  uintn_size : Nat
  number_of_algorithms : Nat
  digest_sizes : List TcgEfiSpecIdEventAlgorithmSize
  vendor_size : Nat
  vendor_info : List Nat
deriving DecidableEq

/-- Errors surfaced by the decoder, one constructor per distinct Python
exception (plus the spec's OutOfBounds for cursor reads past the end and a
fuel marker for the loop embedding, reached only with insufficient fuel). -/
inductive EvError where
  /-- Cursor read past the buffer end (spec §7 OutOfBounds). -/
  | outOfBounds
  /-- `len(None)` in `_parse` raises `TypeError` when `data` is `None`. -/
  | typeErrorNoneData
  /-- `self._spec_id_header_event.digest_sizes` with the header event still
  `None` raises `AttributeError` (eventlog.py line 270). -/
  | attributeErrorNoRegistry
  /-- `ValueError('No algorithm with such algo_id ...')` (line 273). -/
  | valueErrorNoAlgorithm (alg_id : Nat)
  /-- `ValueError('Invalid parameter start.')` (line 119). -/
  | valueErrorStart
  /-- `ValueError('Invalid parameter count.')` (line 127). -/
  | valueErrorCount
  /-- Loop-fuel exhaustion; never reached when fuel ≥ buffer length. -/
  | fuelExhausted
deriving DecidableEq

/-- Mutable state of a `TcgEventLog` object (eventlog.py `__init__`,
lines 31–36). -/
structure TcgEventLog where
  data : Option (List Nat)
  spec_id_header : Option TcgPcClientImrEvent
  spec_id_header_event : Option TcgEfiSpecIdEvent
  event_logs : List TcgImrEventLogEntry
  count : Nat
deriving DecidableEq

namespace TcgEventLog

/-- `TcgEventLog.__init__` (lines 31–36): empty state over a buffer. -/
def init (data : Option (List Nat)) : TcgEventLog :=
  ⟨data, none, none, [], 0⟩

/-- The `for _ in range(spec_id_num_of_algo)` loop of `_parse_header`
(lines 218–221): reads `n` (algo_id u16, digest_size u16) pairs in order. -/
def read_algo_sizes (data : List Nat) :
    Nat → Nat → Option (List TcgEfiSpecIdEventAlgorithmSize × Nat)
  | index, 0 => some ([], index)
  | index, n + 1 =>
    match getUint16 data index with
    | none => none
    | some (algo_id, i1) =>
      match getUint16 data i1 with
      | none => none
      | some (digest_size, i2) =>
        match read_algo_sizes data i2 n with
        | none => none
        | some (rest, j) => some (⟨algo_id, digest_size⟩ :: rest, j)

/-- `_parse_header` (lines 171–233).  On success returns the
`TcgPcClientImrEvent`, the `TcgEfiSpecIdEvent` and the returned cursor
offset.  On failure the error carries the partial mutation: Python assigns
`self._spec_id_header` (line 206) before parsing the spec-id body, so a
failure after that point still leaves the header event stored. -/
def parse_header (data : List Nat) :
    Except (Option TcgPcClientImrEvent × EvError)
      (TcgPcClientImrEvent × TcgEfiSpecIdEvent × Nat) :=
  match getUint32 data 0 with
  | none => .error (none, .outOfBounds)
  | some (imr_index, i1) =>
  match getUint32 data i1 with
  | none => .error (none, .outOfBounds)
  | some (header_event_type, i2) =>
  match getBytes data i2 20 with
  | none => .error (none, .outOfBounds)
  | some (digest, i3) =>
  match getUint32 data i3 with
  | none => .error (none, .outOfBounds)
  | some (header_event_size, i4) =>
  match getBytes data i4 header_event_size with
  | none => .error (none, .outOfBounds)
  | some (header_event, _) =>
  let spec_id_header : TcgPcClientImrEvent :=
    ⟨(imr_index : Int) - 1, header_event_type, digest, header_event_size, header_event⟩
  -- spec-id body re-read in place from `i4` (line 204 discards its cursor)
  match getBytes data i4 16 with
  | none => .error (some spec_id_header, .outOfBounds)
  | some (spec_id_signature, i5) =>
  match getUint32 data i5 with
  | none => .error (some spec_id_header, .outOfBounds)
  | some (spec_id_platform_cls, i6) =>
  match getUint8 data i6 with
  | none => .error (some spec_id_header, .outOfBounds)
  | some (spec_id_version_minor, i7) =>
  match getUint8 data i7 with
  | none => .error (some spec_id_header, .outOfBounds)
  | some (spec_id_version_major, i8) =>
  match getUint8 data i8 with
  | none => .error (some spec_id_header, .outOfBounds)
  | some (spec_id_errata, i9) =>
  match getUint8 data i9 with
  | none => .error (some spec_id_header, .outOfBounds)
  | some (spec_id_uint_size, i10) =>
  match getUint32 data i10 with
  | none => .error (some spec_id_header, .outOfBounds)
  | some (spec_id_num_of_algo, i11) =>
  match read_algo_sizes data i11 spec_id_num_of_algo with
  | none => .error (some spec_id_header, .outOfBounds)
  | some (spec_id_digest_sizes, i12) =>
  match getUint8 data i12 with
  | none => .error (some spec_id_header, .outOfBounds)
  | some (spec_id_vendor_size, i13) =>
  if spec_id_vendor_size > 0 then
    match getBytes data i13 spec_id_vendor_size with
    | none => .error (some spec_id_header, .outOfBounds)
    | some (spec_id_vendor_info, i14) =>
      .ok (spec_id_header,
        ⟨spec_id_signature, spec_id_platform_cls, spec_id_version_minor,
         spec_id_version_major, spec_id_errata, spec_id_uint_size,
         spec_id_num_of_algo, spec_id_digest_sizes, spec_id_vendor_size,
         spec_id_vendor_info⟩, i14)
  else
    .ok (spec_id_header,
      ⟨spec_id_signature, spec_id_platform_cls, spec_id_version_minor,
       spec_id_version_major, spec_id_errata, spec_id_uint_size,
       spec_id_num_of_algo, spec_id_digest_sizes, spec_id_vendor_size,
       []⟩, i13)

/-- The digest loop of `_parse_event_log_body` (lines 268–277): reads `n`
digests, each a u16 algorithm id followed by bytes whose length comes from
the first registry entry with that id (`next(...)`, first match wins). -/
def readDigests (registry : Option TcgEfiSpecIdEvent) (data : List Nat) :
    Nat → Nat → Except EvError (List TcgDigest × Nat)
  | index, 0 => .ok ([], index)
  | index, n + 1 =>
    match getUint16 data index with
    | none => .error .outOfBounds
    | some (alg_id, i1) =>
      match registry with
      | none => .error .attributeErrorNoRegistry
      | some ev =>
        match ev.digest_sizes.find? (fun alg => alg.algo_id == alg_id) with
        | none => .error (.valueErrorNoAlgorithm alg_id)
        | some alg =>
          match getBytes data i1 alg.digest_size with
          | none => .error .outOfBounds
          | some (digest_data, i2) =>
            match readDigests registry data i2 n with
            | .error e => .error e
            | .ok (rest, j) => .ok (⟨alg_id, digest_data⟩ :: rest, j)

/-- `_parse_event_log_body` (lines 235–284): one measurement record, using
the stored `_spec_id_header_event` as the algorithm registry. -/
def parse_event_log_body (registry : Option TcgEfiSpecIdEvent)
    (data : List Nat) : Except EvError (TcgImrEventLogEntry × Nat) :=
  match getUint32 data 0 with
  | none => .error .outOfBounds
  | some (imr_index, i1) =>
  match getUint32 data i1 with
  | none => .error .outOfBounds
  | some (event_type, i2) =>
  match getUint32 data i2 with
  | none => .error .outOfBounds
  | some (digest_count, i3) =>
  match readDigests registry data i3 digest_count with
  | .error e => .error e
  | .ok (digests, i4) =>
  match getUint32 data i4 with
  | none => .error .outOfBounds
  | some (event_size, i5) =>
  match getBytes data i5 event_size with
  | none => .error .outOfBounds
  | some (event, i6) =>
    .ok (⟨(imr_index : Int) - 1, event_type, digests, event_size, event⟩, i6)

/-- Result of one iteration of the `_parse` while-loop body. -/
inductive StepResult where
  /-- The loop ends: `break` on the sentinel (error `none`) or an exception
  propagates (error `some`), with the state as mutated so far. -/
  | stop (st : TcgEventLog) (e : Option EvError)
  /-- The loop continues at the given cursor with the updated state. -/
  | next (st : TcgEventLog) (index : Nat)
deriving DecidableEq

/-- One iteration of the `_parse` loop body (lines 154–169): peek the two
u32 fields, check the 0xFFFFFFFF sentinel, dispatch on `EV_NO_ACTION`. -/
def parse_step (d : List Nat) (st : TcgEventLog) (index : Nat) : StepResult :=
  match getUint32 d index with
  | none => .stop st (some .outOfBounds)
  | some (imr, i1) =>
    match getUint32 d i1 with
    | none => .stop st (some .outOfBounds)
    | some (event_type, _) =>
      if imr = 4294967295 then .stop st none
      else if event_type = EV_NO_ACTION then
        match parse_header (d.drop index) with
        | .error (none, e) => .stop st (some e)
        | .error (some h, e) => .stop { st with spec_id_header := some h } (some e)
        | .ok (h, ev, header_len) =>
          .next { st with spec_id_header := some h, spec_id_header_event := some ev,
                          count := st.count + 1 } (index + header_len)
      else
        match parse_event_log_body st.spec_id_header_event (d.drop index) with
        | .error e => .stop st (some e)
        | .ok (event_log, e_len) =>
          .next { st with event_logs := st.event_logs ++ [event_log],
                          count := st.count + 1 } (index + e_len)

/-- The `while index < len(self._data)` loop of `_parse` (lines 153–169),
with fuel for termination; `parse` supplies fuel `d.length`, which always
suffices because each successful record consumes at least one byte. -/
def parse_loop (d : List Nat) : Nat → TcgEventLog → Nat → TcgEventLog × Option EvError
  | 0, st, index => if index < d.length then (st, some .fuelExhausted) else (st, none)
  | fuel + 1, st, index =>
    if index < d.length then
      match parse_step d st index with
      | .stop st' e => (st', e)
      | .next st' index' => parse_loop d fuel st' index'
    else (st, none)

/-- `_parse` (lines 131–169).  With `data` equal to `None` the function logs
and then evaluates `len(self._data)`, which raises `TypeError`. -/
def parse (st : TcgEventLog) : TcgEventLog × Option EvError :=
  match st.data with
  | none => (st, some .typeErrorNoneData)
  | some d => parse_loop d d.length st 0

/-- `select` (lines 98–129): unconditionally re-parses, then validates and
applies the `start` truncation, then validates and applies the `count`
truncation; a failed check raises, keeping the mutations made so far. -/
def select (st : TcgEventLog) (start count : Option Int) :
    TcgEventLog × Option EvError :=
  match parse st with
  | (st1, some e) => (st1, some e)
  | (st1, none) =>
    match (match start with
           | none => (st1, (none : Option EvError))
           | some s =>
             if 0 < s ∧ s ≤ (st1.count : Int) then
               ({ st1 with event_logs := st1.event_logs.drop (s - 1).toNat }, none)
             else (st1, some .valueErrorStart)) with
    | (st2, some e) => (st2, some e)
    | (st2, none) =>
      match count with
      | none => (st2, none)
      | some c =>
        if 0 < c ∧ c ≤ (st2.event_logs.length : Int) then
          ({ st2 with event_logs := st2.event_logs.take c.toNat }, none)
        else (st2, some .valueErrorCount)

end TcgEventLog

/-! ### Test vectors -/

/-- Little-endian u16 encoding of `n`. -/
def u16le (n : Nat) : List Nat := [n % 256, n / 256 % 256]

/-- Little-endian u32 encoding of `n`. -/
def u32le (n : Nat) : List Nat :=
  [n % 256, n / 256 % 256, n / 65536 % 256, n / 16777216 % 256]

/-- A 16-byte signature placeholder. -/
def sig16 : List Nat := List.replicate 16 0

/-- Spec-id event body declaring one algorithm (id 4, digest size 32) with
empty vendor info: 33 bytes. -/
def specIdBytes : List Nat :=
  sig16 ++ u32le 0 ++ [0, 2, 0, 2] ++ u32le 1 ++ u16le 4 ++ u16le 32 ++ [0]

/-- A well-formed no-action header record (event_size 33 = spec-id body
size): 65 bytes. -/
def headerGood : List Nat :=
  u32le 0 ++ u32le 3 ++ List.replicate 20 0 ++ u32le 33 ++ specIdBytes

/-- A measurement record: register 1, type 2, one digest tagged 4 of
32 × 0xAA, event_size 4, payload `[1,2,3,4]`: 54 bytes. -/
def bodyGood : List Nat :=
  u32le 1 ++ u32le 2 ++ u32le 1 ++ u16le 4 ++ List.replicate 32 170 ++
    u32le 4 ++ [1, 2, 3, 4]

/-- An 8-byte all-ones terminator (sentinel plus a readable event type). -/
def term8 : List Nat := u32le 4294967295 ++ u32le 4294967295

/-- The §8 end-to-end buffer with an 8-byte terminator: 127 bytes. -/
def B8good : List Nat := headerGood ++ bodyGood ++ term8

/-- The §8 end-to-end buffer exactly as stated there, ending with the bare
4-byte sentinel: 123 bytes. -/
def B8bad : List Nat := headerGood ++ bodyGood ++ u32le 4294967295

/-- Header record whose declared event_size (34) is one byte larger than the
spec-id body it contains, with the padding byte present: 66 bytes. -/
def headerPad : List Nat :=
  u32le 0 ++ u32le 3 ++ List.replicate 20 0 ++ u32le 34 ++ specIdBytes ++ [0]

/-- A digest-count-0 measurement record with empty payload: 16 bytes. -/
def body0 : List Nat := u32le 1 ++ u32le 2 ++ u32le 0 ++ u32le 0

/-- Two digest-count-0 records then the terminator: 40 bytes. -/
def C2buf : List Nat := body0 ++ body0 ++ term8

/-- The state of a `TcgEventLog` over `C2buf` after a successful parse. -/
def C2st1 : TcgEventLog := (TcgEventLog.parse (TcgEventLog.init (some C2buf))).1

/-- Start of a measurement record referencing algorithm id 0x9999, absent
from every registry used in the tests. -/
def C3body : List Nat := u32le 1 ++ u32le 2 ++ u32le 1 ++ u16le 39321

/-- The header event decoded from `headerGood` (register 0 − 1, type 3,
20-byte zero digest, event_size 33). -/
def expectedHeader : TcgPcClientImrEvent :=
  ⟨-1, 3, List.replicate 20 0, 33, specIdBytes⟩

/-- The spec-id event decoded from `headerGood`: registry `[(4, 32)]`. -/
def expectedSpecId : TcgEfiSpecIdEvent :=
  ⟨sig16, 0, 0, 2, 0, 2, 1, [⟨4, 32⟩], 0, []⟩

/-- The measurement record decoded from `bodyGood`. -/
def expectedEntry : TcgImrEventLogEntry :=
  ⟨0, 2, [⟨4, List.replicate 32 170⟩], 4, [1, 2, 3, 4]⟩

/-- State used in witnesses: a log whose header record has already been
parsed (registry `[(4, 32)]`) and whose cursor sits before a further
record. -/
def stC3 : TcgEventLog :=
  ⟨some C3body, some expectedHeader, some expectedSpecId, [], 1⟩

/-- Projection on `parse_header` results: the returned cursor offset, when
the parse succeeded. -/
def headerLenOf
    (r : Except (Option TcgPcClientImrEvent × EvError)
      (TcgPcClientImrEvent × TcgEfiSpecIdEvent × Nat)) : Option Nat :=
  match r with
  | .ok (_, _, n) => some n
  | .error _ => none

/-- The state of a `TcgEventLog` over `B8good` after one `select(None,
None)` call (used to exercise a second `select` on an already-parsed log). -/
def C9st1 : TcgEventLog :=
  (TcgEventLog.select (TcgEventLog.init (some B8good)) none none).1

/-! ### Helper lemmas -/

theorem find?_append_first {α : Type} (pre : List α) (e : α) (rest : List α)
    (p : α → Bool) (hpre : ∀ x ∈ pre, p x = false) (he : p e = true) :
    (pre ++ e :: rest).find? p = some e := by
  induction pre with
  | nil => simp [List.find?, he]
  | cons a l ih =>
    have ha : p a = false := hpre a (by simp)
    simpa [List.find?, ha] using ih (fun x hx => hpre x (by simp [hx]))

theorem getBytes_eq (d : List Nat) (p c : Nat) (bs : List Nat) (k : Nat)
    (h : getBytes d p c = some (bs, k)) :
    bs = (d.drop p).take c ∧ k = p + c ∧ p + c ≤ d.length := by
  unfold getBytes at h
  split at h
  · next hle =>
    simp only [Option.some.injEq, Prod.mk.injEq] at h
    exact ⟨h.1.symm, h.2.symm, hle⟩
  · simp at h

theorem getBytes_length (d : List Nat) (p c : Nat) (bs : List Nat) (k : Nat)
    (h : getBytes d p c = some (bs, k)) : bs.length = c := by
  obtain ⟨hb, _, hle⟩ := getBytes_eq d p c bs k h
  subst hb
  simp [List.length_take, List.length_drop]
  omega

theorem getReadW_offset (w : Nat) (d : List Nat) (p v j : Nat)
    (h : (getBytes d p w).map (fun r => (leNat r.1, r.2)) = some (v, j)) :
    j = p + w := by
  cases hg : getBytes d p w with
  | none => rw [hg] at h; simp at h
  | some r =>
    rw [hg] at h
    simp only [Option.map_some', Option.some.injEq, Prod.mk.injEq] at h
    have hk : r.2 = p + w := (getBytes_eq d p w r.1 r.2 (by rw [hg])).2.1
    omega

theorem getUint8_offset (d : List Nat) (p v j : Nat)
    (h : getUint8 d p = some (v, j)) : j = p + 1 :=
  getReadW_offset 1 d p v j h

theorem getUint16_offset (d : List Nat) (p v j : Nat)
    (h : getUint16 d p = some (v, j)) : j = p + 2 :=
  getReadW_offset 2 d p v j h

theorem getUint32_offset (d : List Nat) (p v j : Nat)
    (h : getUint32 d p = some (v, j)) : j = p + 4 :=
  getReadW_offset 4 d p v j h

theorem read_algo_sizes_offset (d : List Nat) :
    ∀ (n i : Nat) (l : List TcgEfiSpecIdEventAlgorithmSize) (j : Nat),
      TcgEventLog.read_algo_sizes d i n = some (l, j) → j = i + 4 * n := by
  intro n
  induction n with
  | zero =>
    intro i l j h
    simp only [TcgEventLog.read_algo_sizes, Option.some.injEq,
      Prod.mk.injEq] at h
    omega
  | succ m ih =>
    intro i l j h
    simp only [TcgEventLog.read_algo_sizes] at h
    cases hg1 : getUint16 d i with
    | none => rw [hg1] at h; simp at h
    | some r1 =>
      obtain ⟨aid, i1⟩ := r1
      rw [hg1] at h
      dsimp only at h
      cases hg2 : getUint16 d i1 with
      | none => rw [hg2] at h; simp at h
      | some r2 =>
        obtain ⟨dsz, i2⟩ := r2
        rw [hg2] at h
        dsimp only at h
        cases hrec : TcgEventLog.read_algo_sizes d i2 m with
        | none => rw [hrec] at h; simp at h
        | some rr =>
          obtain ⟨rl, rj⟩ := rr
          rw [hrec] at h
          dsimp only at h
          simp only [Option.some.injEq, Prod.mk.injEq] at h
          have e1 : i1 = i + 2 := getUint16_offset d i aid i1 hg1
          have e2 : i2 = i1 + 2 := getUint16_offset d i1 dsz i2 hg2
          have e3 : rj = i2 + 4 * m := ih i2 rl rj hrec
          omega

theorem parse_header_offset (data : List Nat) (h : TcgPcClientImrEvent)
    (ev : TcgEfiSpecIdEvent) (n : Nat)
    (hp : TcgEventLog.parse_header data = .ok (h, ev, n)) :
    n = 32 + (29 + 4 * ev.number_of_algorithms + ev.vendor_size) := by
  unfold TcgEventLog.parse_header at hp
  cases hg1 : getUint32 data 0 with
  | none => rw [hg1] at hp; simp at hp
  | some r1 =>
  obtain ⟨imr, i1⟩ := r1
  rw [hg1] at hp; dsimp only at hp
  cases hg2 : getUint32 data i1 with
  | none => rw [hg2] at hp; simp at hp
  | some r2 =>
  obtain ⟨het, i2⟩ := r2
  rw [hg2] at hp; dsimp only at hp
  cases hg3 : getBytes data i2 20 with
  | none => rw [hg3] at hp; simp at hp
  | some r3 =>
  obtain ⟨dg, i3⟩ := r3
  rw [hg3] at hp; dsimp only at hp
  cases hg4 : getUint32 data i3 with
  | none => rw [hg4] at hp; simp at hp
  | some r4 =>
  obtain ⟨esz, i4⟩ := r4
  rw [hg4] at hp; dsimp only at hp
  cases hg5 : getBytes data i4 esz with
  | none => rw [hg5] at hp; simp at hp
  | some r5 =>
  obtain ⟨hev_bytes, iu⟩ := r5
  rw [hg5] at hp; dsimp only at hp
  cases hg6 : getBytes data i4 16 with
  | none => rw [hg6] at hp; simp at hp
  | some r6 =>
  obtain ⟨sig, i5⟩ := r6
  rw [hg6] at hp; dsimp only at hp
  cases hg7 : getUint32 data i5 with
  | none => rw [hg7] at hp; simp at hp
  | some r7 =>
  obtain ⟨pc, i6⟩ := r7
  rw [hg7] at hp; dsimp only at hp
  cases hg8 : getUint8 data i6 with
  | none => rw [hg8] at hp; simp at hp
  | some r8 =>
  obtain ⟨vmin, i7⟩ := r8
  rw [hg8] at hp; dsimp only at hp
  cases hg9 : getUint8 data i7 with
  | none => rw [hg9] at hp; simp at hp
  | some r9 =>
  obtain ⟨vmaj, i8⟩ := r9
  rw [hg9] at hp; dsimp only at hp
  cases hg10 : getUint8 data i8 with
  | none => rw [hg10] at hp; simp at hp
  | some r10 =>
  obtain ⟨err, i9⟩ := r10
  rw [hg10] at hp; dsimp only at hp
  cases hg11 : getUint8 data i9 with
  | none => rw [hg11] at hp; simp at hp
  | some r11 =>
  obtain ⟨usz, i10⟩ := r11
  rw [hg11] at hp; dsimp only at hp
  cases hg12 : getUint32 data i10 with
  | none => rw [hg12] at hp; simp at hp
  | some r12 =>
  obtain ⟨numalg, i11⟩ := r12
  rw [hg12] at hp; dsimp only at hp
  cases hg13 : TcgEventLog.read_algo_sizes data i11 numalg with
  | none => rw [hg13] at hp; simp at hp
  | some r13 =>
  obtain ⟨sizes, i12⟩ := r13
  rw [hg13] at hp; dsimp only at hp
  cases hg14 : getUint8 data i12 with
  | none => rw [hg14] at hp; simp at hp
  | some r14 =>
  obtain ⟨vsz, i13⟩ := r14
  rw [hg14] at hp; dsimp only at hp
  have e5 : i5 = i4 + 16 := (getBytes_eq data i4 16 sig i5 hg6).2.1
  have e6 : i6 = i5 + 4 := getUint32_offset data i5 pc i6 hg7
  have e7 : i7 = i6 + 1 := getUint8_offset data i6 vmin i7 hg8
  have e8 : i8 = i7 + 1 := getUint8_offset data i7 vmaj i8 hg9
  have e9 : i9 = i8 + 1 := getUint8_offset data i8 err i9 hg10
  have e10 : i10 = i9 + 1 := getUint8_offset data i9 usz i10 hg11
  have e11 : i11 = i10 + 4 := getUint32_offset data i10 numalg i11 hg12
  have e12 : i12 = i11 + 4 * numalg :=
    read_algo_sizes_offset data numalg i11 sizes i12 hg13
  have e13 : i13 = i12 + 1 := getUint8_offset data i12 vsz i13 hg14
  have e1 : i1 = 0 + 4 := getUint32_offset data 0 imr i1 hg1
  have e2 : i2 = i1 + 4 := getUint32_offset data i1 het i2 hg2
  have e3 : i3 = i2 + 20 := (getBytes_eq data i2 20 dg i3 hg3).2.1
  have e4 : i4 = i3 + 4 := getUint32_offset data i3 esz i4 hg4
  by_cases hv : vsz > 0
  · rw [if_pos hv] at hp
    cases hg15 : getBytes data i13 vsz with
    | none => rw [hg15] at hp; simp at hp
    | some r15 =>
      obtain ⟨vinfo, i14⟩ := r15
      rw [hg15] at hp; dsimp only at hp
      have e14 : i14 = i13 + vsz := (getBytes_eq data i13 vsz vinfo i14 hg15).2.1
      simp only [Except.ok.injEq, Prod.mk.injEq] at hp
      obtain ⟨-, hev, hn⟩ := hp
      subst hev
      simp only []
      omega
  · rw [if_neg hv] at hp
    simp only [Except.ok.injEq, Prod.mk.injEq] at hp
    obtain ⟨-, hev, hn⟩ := hp
    subst hev
    simp only []
    omega

namespace TcgEventLog

/-! ### Claim theorems -/

/-- C4: for `data = None` the parse does not yield an empty result: it
raises `TypeError` (from `len(self._data)`) right after logging, so the
claimed "no error raised" behavior fails on the `None` input; for the empty
buffer the parse does return zero records with no error.  The first
conjunct evaluates the code at the failing input, the second shows the
empty-buffer half of the claim is the intended behavior. -/
theorem claim_C4_none_raises :
    parse (init none) = (init none, some EvError.typeErrorNoneData) ∧
    parse (init (some [])) = (init (some []), none) :=
  ⟨rfl, rfl⟩

/-- C5 (amended): when the register-index field at the current offset reads
as 0xFFFFFFFF **and the following event-type u32 is still readable**, the
parse loop stops with no error and the state (records and count) exactly as
accumulated before the sentinel. -/
theorem claim_C5_sentinel_stops (d : List Nat) (fuel : Nat) (st : TcgEventLog)
    (index i1 et i2 : Nat) (hlen : index < d.length)
    (h1 : getUint32 d index = some (4294967295, i1))
    (h2 : getUint32 d i1 = some (et, i2)) :
    parse_loop d (fuel + 1) st index = (st, none) := by
  simp [parse_loop, hlen, parse_step, h1, h2]

/-- C5 witness: a buffer holding the sentinel followed by four more bytes
stops cleanly with the state unchanged. -/
theorem claim_C5_witness :
    parse_loop [255, 255, 255, 255, 0, 0, 0, 0] 1
        (init (some [255, 255, 255, 255, 0, 0, 0, 0])) 0 =
      (init (some [255, 255, 255, 255, 0, 0, 0, 0]), none) :=
  claim_C5_sentinel_stops _ 0 _ 0 4 0 8 (by decide) (by decide) (by decide)

/-- C5 counterexample: on the buffer consisting of the sentinel alone the
parse does **not** stop without error — reading the event-type field goes
out of bounds, refuting "for every buffer ... stops without error". -/
theorem claim_C5_counterexample :
    parse (init (some [255, 255, 255, 255])) =
      (init (some [255, 255, 255, 255]), some EvError.outOfBounds) := by
  decide

/-- C10: the sentinel check happens only after both u32 reads, so a buffer
whose remaining content is the 4-byte sentinel value alone (the event-type
read fails) aborts with OutOfBounds instead of terminating cleanly. -/
theorem claim_C10_event_type_read (d : List Nat) (fuel : Nat)
    (st : TcgEventLog) (index i1 : Nat) (hlen : index < d.length)
    (h1 : getUint32 d index = some (4294967295, i1))
    (h2 : getUint32 d i1 = none) :
    parse_loop d (fuel + 1) st index = (st, some EvError.outOfBounds) := by
  simp [parse_loop, hlen, parse_step, h1, h2]

/-- C10 witness: the 4-byte buffer holding only the sentinel value. -/
theorem claim_C10_witness :
    parse_loop [255, 255, 255, 255] 1 (init (some [255, 255, 255, 255])) 0 =
      (init (some [255, 255, 255, 255]), some EvError.outOfBounds) :=
  claim_C10_event_type_read _ 0 _ 0 4 (by decide) (by decide) (by decide)

/-- C8 (amended): on the §8 buffer with four readable bytes after the
sentinel, the parse returns cleanly with registry `[(4, 32)]`, count 2 and
exactly one measurement record (register 0, one 32-byte digest tagged 4,
4-byte payload). -/
theorem claim_C8_amended :
    parse (init (some B8good)) =
      (⟨some B8good, some expectedHeader, some expectedSpecId,
        [expectedEntry], 2⟩, none) := by
  decide

/-- C8 counterexample: on the buffer exactly as the claim states it (bare
4-byte sentinel at the end), the parse raises OutOfBounds while reading the
event-type field at the sentinel, so it does not yield the stated result
cleanly — even though the state holds the stated registry, count and
records at that point. -/
theorem claim_C8_counterexample :
    parse (init (some B8bad)) =
      (⟨some B8bad, some expectedHeader, some expectedSpecId,
        [expectedEntry], 2⟩, some EvError.outOfBounds) := by
  decide

/-- C1 (amended): on a header record whose reads all succeed, the Header
Record Parser returns start-of-record + 8 fixed bytes + 20 digest bytes +
4 size bytes + the size of the spec-id structure it actually parsed
(29 + 4 · number_of_algorithms + vendor_size), and the Log Driver resumes
at exactly that offset.  This equals start + 32 + event_size exactly when
the declared event_size equals that structure size; the declared
event_size itself is not used for the returned offset. -/
theorem claim_C1_header_offset (d : List Nat) (fuel : Nat) (st : TcgEventLog)
    (index imr i1 et i2 n : Nat) (h : TcgPcClientImrEvent)
    (ev : TcgEfiSpecIdEvent) (hlen : index < d.length)
    (h1 : getUint32 d index = some (imr, i1))
    (h2 : getUint32 d i1 = some (et, i2))
    (himr : imr ≠ 4294967295) (het : et = EV_NO_ACTION)
    (hph : parse_header (d.drop index) = .ok (h, ev, n)) :
    n = 32 + (29 + 4 * ev.number_of_algorithms + ev.vendor_size) ∧
    parse_loop d (fuel + 1) st index =
      parse_loop d fuel
        { st with spec_id_header := some h, spec_id_header_event := some ev,
                  count := st.count + 1 } (index + n) := by
  refine ⟨parse_header_offset (d.drop index) h ev n hph, ?_⟩
  simp [parse_loop, hlen, parse_step, h1, h2, himr, het, hph]

/-- C1 witness: `B8good` starts with a header of event_size 33 = spec-id
structure size, so the parser returns 65 = 32 + 33 and the driver resumes
there. -/
theorem claim_C1_witness :
    65 = 32 + (29 + 4 * expectedSpecId.number_of_algorithms +
      expectedSpecId.vendor_size) ∧
    parse_loop B8good 1 (init (some B8good)) 0 =
      parse_loop B8good 0
        ⟨some B8good, some expectedHeader, some expectedSpecId, [], 1⟩ 65 :=
  claim_C1_header_offset B8good 0 (init (some B8good)) 0 0 4 3 8 65
    expectedHeader expectedSpecId
    (by decide) (by decide) (by decide) (by decide) (by decide) rfl

/-- C1 counterexample: `headerPad` declares event_size 34 (one padding byte,
present in the buffer, so the declared size is consistent with the bytes
available), yet the parser returns offset 65 ≠ 32 + 34 = 66; resuming at 65
desynchronizes the driver (it aborts on the padding byte), while offset 66
would have reached the terminator cleanly. -/
theorem claim_C1_counterexample :
    getUint32 headerPad 28 = some (34, 32) ∧
    32 + 34 ≤ headerPad.length ∧
    headerLenOf (parse_header headerPad) = some 65 ∧
    65 ≠ 32 + 34 ∧
    (parse (init (some (headerPad ++ term8)))).2 = some EvError.outOfBounds ∧
    parse_loop (headerPad ++ term8) 5 (init (some (headerPad ++ term8))) 66 =
      (init (some (headerPad ++ term8)), none) := by
  exact ⟨by decide, by decide, by decide, by decide, by decide, by decide⟩

/-- C3: when a measurement record's digest list references an algorithm id
with no matching registry entry, the digest loop fails with the
UnknownAlgorithm error (`ValueError('No algorithm with such algo_id ...')`),
the error propagates through the body parser, and the parse loop returns it
with the state exactly as it was when that record started — no record at or
beyond the failure is added. -/
theorem claim_C3_unknown_algorithm :
    (∀ (ev : TcgEfiSpecIdEvent) (data : List Nat) (i j n a : Nat),
      ev.digest_sizes.find? (fun alg => alg.algo_id == a) = none →
      getUint16 data i = some (a, j) →
      readDigests (some ev) data i (n + 1) =
        .error (.valueErrorNoAlgorithm a)) ∧
    (∀ (reg : Option TcgEfiSpecIdEvent) (data : List Nat)
      (r0 i1 r1 i2 dc i3 : Nat) (e : EvError),
      getUint32 data 0 = some (r0, i1) →
      getUint32 data i1 = some (r1, i2) →
      getUint32 data i2 = some (dc, i3) →
      readDigests reg data i3 dc = .error e →
      parse_event_log_body reg data = .error e) ∧
    (∀ (d : List Nat) (fuel : Nat) (st : TcgEventLog)
      (index imr i1 et i2 a : Nat),
      index < d.length →
      getUint32 d index = some (imr, i1) →
      getUint32 d i1 = some (et, i2) →
      imr ≠ 4294967295 → et ≠ EV_NO_ACTION →
      parse_event_log_body st.spec_id_header_event (d.drop index) =
        .error (.valueErrorNoAlgorithm a) →
      parse_loop d (fuel + 1) st index =
        (st, some (.valueErrorNoAlgorithm a))) := by
  refine ⟨?_, ?_, ?_⟩
  · intro ev data i j n a hfind hu
    simp [readDigests, hu, hfind]
  · intro reg data r0 i1 r1 i2 dc i3 e h1 h2 h3 hrd
    simp [parse_event_log_body, h1, h2, h3, hrd]
  · intro d fuel st index imr i1 et i2 a hlen h1 h2 himr het hbody
    simp [parse_loop, hlen, parse_step, h1, h2, himr, het, hbody]

/-- C3 witness: registry `[(4, 32)]`, record referencing id 0x9999
(39321): the digest loop, the body parser and the parse loop all abort
with UnknownAlgorithm, leaving the state at the record start. -/
theorem claim_C3_witness :
    readDigests (some expectedSpecId) (u16le 39321) 0 1 =
      .error (.valueErrorNoAlgorithm 39321) ∧
    parse_event_log_body (some expectedSpecId) C3body =
      .error (.valueErrorNoAlgorithm 39321) ∧
    parse_loop C3body 1 stC3 0 =
      (stC3, some (.valueErrorNoAlgorithm 39321)) :=
  ⟨claim_C3_unknown_algorithm.1 expectedSpecId (u16le 39321) 0 2 0 39321
      (by decide) (by decide),
   claim_C3_unknown_algorithm.2.1 (some expectedSpecId) C3body 1 4 2 8 1 12 _
      (by decide) (by decide) (by decide) rfl,
   claim_C3_unknown_algorithm.2.2 C3body 0 stC3 0 1 4 2 8 39321
      (by decide) (by decide) (by decide) (by decide) (by decide) rfl⟩

/-- C2 (amended): a `select` call that fails with InvalidRange leaves the
records as of the point of failure inside the call, not as before the
call: the unconditional re-parse has already run, and when `start` is
valid its truncation has already been applied before the `count` check
raises.  Concretely, after a clean parse pass: failing on `start` leaves
the re-parsed sequence untruncated; failing on `count` after a valid
`start` leaves the re-parsed sequence truncated at `start`. -/
theorem claim_C2_select_failure (st st1 : TcgEventLog) (s : Int)
    (c : Option Int) (hp : parse st = (st1, none)) :
    (¬(0 < s ∧ s ≤ (st1.count : Int)) →
      select st (some s) c = (st1, some EvError.valueErrorStart)) ∧
    (∀ cv : Int, c = some cv → (0 < s ∧ s ≤ (st1.count : Int)) →
      ¬(0 < cv ∧ cv ≤ ((st1.event_logs.drop (s - 1).toNat).length : Int)) →
      select st (some s) c =
        ({ st1 with event_logs := st1.event_logs.drop (s - 1).toNat },
          some EvError.valueErrorCount)) := by
  constructor
  · intro hs
    simp [select, hp, hs]
  · intro cv hc hs hcv
    subst hc
    simp [select, hp, hs, hcv]
    simp only [List.length_drop] at hcv
    omega

/-- C2 witness: over `C2buf` (two records), `select(2, 5)` fails the count
check but has already dropped the first record. -/
theorem claim_C2_witness :
    select (init (some C2buf)) (some 2) (some 5) =
      ({ C2st1 with event_logs := C2st1.event_logs.drop ((2 : Int) - 1).toNat },
        some EvError.valueErrorCount) :=
  (claim_C2_select_failure (init (some C2buf)) C2st1 2 (some 5) rfl).2 5 rfl
    (by decide) (by decide)

/-- C2 counterexample: `C2st1` is a parsed EventLog (two records); the
call `select(2, 5)` fails with InvalidRange on `count`, yet the stored
records after the failed call differ from the records before it (the
re-parse appended them again and the valid `start` dropped one), refuting
"the stored records sequence after the failed call equals the records
sequence before the call". -/
theorem claim_C2_counterexample :
    (parse (init (some C2buf))).2 = none ∧
    (select C2st1 (some 2) (some 5)).2 = some EvError.valueErrorCount ∧
    (select C2st1 (some 2) (some 5)).1.event_logs ≠ C2st1.event_logs := by
  exact ⟨by decide, by decide, by decide⟩

theorem readDigests_none_ok (data : List Nat) (i n : Nat) (l : List TcgDigest)
    (j : Nat) (h : readDigests none data i n = .ok (l, j)) :
    n = 0 ∧ l = [] ∧ j = i := by
  cases n with
  | zero =>
    simp only [readDigests, Except.ok.injEq, Prod.mk.injEq] at h
    exact ⟨rfl, h.1.symm, h.2.symm⟩
  | succ m =>
    simp only [readDigests] at h
    cases hg : getUint16 data i with
    | none => rw [hg] at h; simp at h
    | some r =>
      obtain ⟨a, i1⟩ := r
      rw [hg] at h
      simp at h

theorem parse_event_log_body_none (data : List Nat)
    (entry : TcgImrEventLogEntry) (n : Nat) (ρ : Option TcgEfiSpecIdEvent)
    (h : parse_event_log_body none data = .ok (entry, n)) :
    parse_event_log_body ρ data = .ok (entry, n) := by
  unfold parse_event_log_body at h ⊢
  cases hg1 : getUint32 data 0 with
  | none => rw [hg1] at h; simp at h
  | some r1 =>
  obtain ⟨imr, i1⟩ := r1
  rw [hg1] at h; dsimp only at h ⊢
  cases hg2 : getUint32 data i1 with
  | none => rw [hg2] at h; simp at h
  | some r2 =>
  obtain ⟨et, i2⟩ := r2
  rw [hg2] at h; dsimp only at h ⊢
  cases hg3 : getUint32 data i2 with
  | none => rw [hg3] at h; simp at h
  | some r3 =>
  obtain ⟨dc, i3⟩ := r3
  rw [hg3] at h; dsimp only at h ⊢
  cases hrd : readDigests none data i3 dc with
  | error e => rw [hrd] at h; simp at h
  | ok pr =>
  obtain ⟨dgs, i4⟩ := pr
  obtain ⟨hdc, hdg, hi4⟩ := readDigests_none_ok data i3 dc dgs i4 hrd
  subst hdc; subst hdg; subst hi4
  rw [hrd] at h; dsimp only at h
  simp only [readDigests]
  cases hg4 : getUint32 data i4 with
  | none => rw [hg4] at h; simp at h
  | some r4 =>
  obtain ⟨esz, i5⟩ := r4
  rw [hg4] at h; dsimp only at h ⊢
  cases hg5 : getBytes data i5 esz with
  | none => rw [hg5] at h; simp at h
  | some r5 =>
  obtain ⟨evb, i6⟩ := r5
  rw [hg5] at h; dsimp only at h ⊢
  exact h

theorem parse_step_shift (d : List Nat) (dd : Option (List Nat))
    (h : Option TcgPcClientImrEvent) (ρ : Option TcgEfiSpecIdEvent)
    (l : List TcgImrEventLogEntry) (c : Nat) (i : Nat) :
    parse_step d ⟨dd, h, ρ, l, c⟩ i =
      (match parse_step d ⟨dd, h, ρ, [], 0⟩ i with
       | .stop s e =>
         .stop ⟨s.data, s.spec_id_header, s.spec_id_header_event,
           l ++ s.event_logs, c + s.count⟩ e
       | .next s j =>
         .next ⟨s.data, s.spec_id_header, s.spec_id_header_event,
           l ++ s.event_logs, c + s.count⟩ j) := by
  cases hg1 : getUint32 d i with
  | none => simp [parse_step, hg1]
  | some r1 =>
  obtain ⟨imr, i1⟩ := r1
  cases hg2 : getUint32 d i1 with
  | none => simp [parse_step, hg1, hg2]
  | some r2 =>
  obtain ⟨et, i2⟩ := r2
  by_cases himr : imr = 4294967295
  · simp [parse_step, hg1, hg2, himr]
  · by_cases het : et = EV_NO_ACTION
    · cases hph : parse_header (d.drop i) with
      | error pe =>
        obtain ⟨ho, e⟩ := pe
        cases ho with
        | none => simp [parse_step, hg1, hg2, himr, het, hph]
        | some hh => simp [parse_step, hg1, hg2, himr, het, hph]
      | ok tr =>
        obtain ⟨hh, ev, hl⟩ := tr
        simp [parse_step, hg1, hg2, himr, het, hph]
    · cases hb : parse_event_log_body ρ (d.drop i) with
      | error e => simp [parse_step, hg1, hg2, himr, het, hb]
      | ok pr =>
        obtain ⟨entry, el⟩ := pr
        simp [parse_step, hg1, hg2, himr, het, hb]

theorem parse_step_data (d : List Nat) (st : TcgEventLog) (i : Nat) :
    (match parse_step d st i with
     | .stop s _ => s.data
     | .next s _ => s.data) = st.data := by
  cases hg1 : getUint32 d i with
  | none => simp [parse_step, hg1]
  | some r1 =>
  obtain ⟨imr, i1⟩ := r1
  cases hg2 : getUint32 d i1 with
  | none => simp [parse_step, hg1, hg2]
  | some r2 =>
  obtain ⟨et, i2⟩ := r2
  by_cases himr : imr = 4294967295
  · simp [parse_step, hg1, hg2, himr]
  · by_cases het : et = EV_NO_ACTION
    · cases hph : parse_header (d.drop i) with
      | error pe =>
        obtain ⟨ho, e⟩ := pe
        cases ho with
        | none => simp [parse_step, hg1, hg2, himr, het, hph]
        | some hh => simp [parse_step, hg1, hg2, himr, het, hph]
      | ok tr =>
        obtain ⟨hh, ev, hl⟩ := tr
        simp [parse_step, hg1, hg2, himr, het, hph]
    · cases hb : parse_event_log_body st.spec_id_header_event (d.drop i) with
      | error e => simp [parse_step, hg1, hg2, himr, het, hb]
      | ok pr =>
        obtain ⟨entry, el⟩ := pr
        simp [parse_step, hg1, hg2, himr, het, hb]

theorem parse_loop_data (d : List Nat) :
    ∀ (fuel : Nat) (st : TcgEventLog) (i : Nat),
      (parse_loop d fuel st i).1.data = st.data := by
  intro fuel
  induction fuel with
  | zero =>
    intro st i
    by_cases hi : i < d.length <;> simp [parse_loop, hi]
  | succ n ih =>
    intro st i
    by_cases hi : i < d.length
    · simp only [parse_loop, if_pos hi]
      have hsd := parse_step_data d st i
      cases hps : parse_step d st i with
      | stop s e => rw [hps] at hsd; simpa using hsd
      | next s j => rw [hps] at hsd; simp only []; rw [ih s j]; exact hsd
    · simp [parse_loop, hi]

theorem state_eta (dd : Option (List Nat)) (st' : TcgEventLog)
    (hd : st'.data = dd) :
    (⟨dd, st'.spec_id_header, st'.spec_id_header_event, st'.event_logs,
      st'.count⟩ : TcgEventLog) = st' := by
  obtain ⟨sd, sh, sρ, sl, sc⟩ := st'
  dsimp only at hd
  rw [hd]

theorem parse_loop_shift (d : List Nat) :
    ∀ (fuel : Nat) (i : Nat) (dd : Option (List Nat))
      (h : Option TcgPcClientImrEvent) (ρ : Option TcgEfiSpecIdEvent)
      (l : List TcgImrEventLogEntry) (c : Nat),
      parse_loop d fuel ⟨dd, h, ρ, l, c⟩ i =
        ((⟨(parse_loop d fuel ⟨dd, h, ρ, [], 0⟩ i).1.data,
           (parse_loop d fuel ⟨dd, h, ρ, [], 0⟩ i).1.spec_id_header,
           (parse_loop d fuel ⟨dd, h, ρ, [], 0⟩ i).1.spec_id_header_event,
           l ++ (parse_loop d fuel ⟨dd, h, ρ, [], 0⟩ i).1.event_logs,
           c + (parse_loop d fuel ⟨dd, h, ρ, [], 0⟩ i).1.count⟩ : TcgEventLog),
         (parse_loop d fuel ⟨dd, h, ρ, [], 0⟩ i).2) := by
  intro fuel
  induction fuel with
  | zero =>
    intro i dd h ρ l c
    by_cases hi : i < d.length <;> simp [parse_loop, hi]
  | succ n ih =>
    intro i dd h ρ l c
    by_cases hi : i < d.length
    · simp only [parse_loop, if_pos hi]
      rw [parse_step_shift]
      cases hps : parse_step d (⟨dd, h, ρ, [], 0⟩ : TcgEventLog) i with
      | stop s e => simp
      | next s j =>
        obtain ⟨sd, sh, sρ, sl, sc⟩ := s
        simp only []
        rw [ih j sd sh sρ (l ++ sl) (c + sc), ih j sd sh sρ sl sc]
        simp [List.append_assoc, Nat.add_assoc]
    · simp [parse_loop, hi]

theorem parse_loop_replay (d : List Nat) :
    ∀ (fuel i : Nat) (dd : Option (List Nat))
      (h₁ h₂ : Option TcgPcClientImrEvent) (ρ₂ : Option TcgEfiSpecIdEvent)
      (st' : TcgEventLog),
      parse_loop d fuel ⟨dd, h₁, none, [], 0⟩ i = (st', none) →
      h₂ = st'.spec_id_header → ρ₂ = st'.spec_id_header_event →
      parse_loop d fuel ⟨dd, h₂, ρ₂, [], 0⟩ i =
        (⟨dd, st'.spec_id_header, st'.spec_id_header_event, st'.event_logs,
          st'.count⟩, none) := by
  intro fuel
  induction fuel with
  | zero =>
    intro i dd h₁ h₂ ρ₂ st' hrun hh hρ
    by_cases hi : i < d.length
    · simp [parse_loop, hi] at hrun
    · simp only [parse_loop, if_neg hi] at hrun ⊢
      injection hrun with ha hb
      subst ha
      dsimp only at hh hρ
      subst hh; subst hρ
      rfl
  | succ n ih =>
    intro i dd h₁ h₂ ρ₂ st' hrun hh hρ
    by_cases hi : i < d.length
    · simp only [parse_loop, if_pos hi] at hrun ⊢
      unfold parse_step at hrun ⊢
      cases hg1 : getUint32 d i with
      | none => rw [hg1] at hrun; simp at hrun
      | some r1 =>
      obtain ⟨imr, i1⟩ := r1
      rw [hg1] at hrun
      dsimp only at hrun ⊢
      cases hg2 : getUint32 d i1 with
      | none => rw [hg2] at hrun; simp at hrun
      | some r2 =>
      obtain ⟨et, i2⟩ := r2
      rw [hg2] at hrun
      dsimp only at hrun ⊢
      by_cases himr : imr = 4294967295
      · rw [if_pos himr] at hrun
        simp only [if_pos himr]
        dsimp only at hrun
        injection hrun with ha hb
        subst ha
        dsimp only at hh hρ
        subst hh; subst hρ
        rfl
      · by_cases het : et = EV_NO_ACTION
        · rw [if_neg himr, if_pos het] at hrun
          simp only [if_neg himr, if_pos het]
          cases hph : parse_header (d.drop i) with
          | error pe =>
            obtain ⟨ho, e⟩ := pe
            rw [hph] at hrun
            cases ho with
            | none => simp at hrun
            | some hhd => simp at hrun
          | ok tr =>
            obtain ⟨hdr, ev, hl⟩ := tr
            rw [hph] at hrun
            dsimp only at hrun ⊢
            rw [hrun]
            have hd : st'.data = dd := by
              have h0 := parse_loop_data d n
                ⟨dd, some hdr, some ev, [], 0 + 1⟩ (i + hl)
              rw [hrun] at h0
              simpa using h0
            rw [state_eta dd st' hd]
        · rw [if_neg himr, if_neg het] at hrun
          simp only [if_neg himr, if_neg het]
          cases hb : parse_event_log_body none (d.drop i) with
          | error e => rw [hb] at hrun; simp at hrun
          | ok pr =>
            obtain ⟨entry, el⟩ := pr
            rw [hb] at hrun
            dsimp only at hrun
            have hb2 := parse_event_log_body_none (d.drop i) entry el ρ₂ hb
            rw [hb2]
            dsimp only
            rw [parse_loop_shift] at hrun
            rw [parse_loop_shift d n (i + el) dd h₂ ρ₂ ([] ++ [entry]) (0 + 1)]
            cases hR : parse_loop d n (⟨dd, h₁, none, [], 0⟩ : TcgEventLog)
                (i + el) with
            | mk su eu =>
              rw [hR] at hrun
              dsimp only at hrun
              injection hrun with ha hb'
              subst hb'
              rw [← ha] at hh hρ
              dsimp only at hh hρ
              have hIH := ih (i + el) dd h₁ h₂ ρ₂ su hR hh hρ
              rw [hIH]
              dsimp only
              rw [← ha]
    · simp only [parse_loop, if_neg hi] at hrun ⊢
      injection hrun with ha hb
      subst ha
      dsimp only at hh hρ
      subst hh; subst hρ
      rfl

/-- C6: a no-action record encountered at any point of the stream, in any
state (in particular one whose registry was already set by an earlier
header), is parsed as a header record: it is not rejected, contributes no
measurement record, and overwrites the stored header and registry with the
newly parsed ones (last header wins for subsequent body lookups, which read
`spec_id_header_event` from the state). -/
theorem claim_C6_later_header (d : List Nat) (fuel : Nat) (st : TcgEventLog)
    (index imr i1 et i2 n : Nat) (h : TcgPcClientImrEvent)
    (ev : TcgEfiSpecIdEvent) (hlen : index < d.length)
    (h1 : getUint32 d index = some (imr, i1))
    (h2 : getUint32 d i1 = some (et, i2))
    (himr : imr ≠ 4294967295) (het : et = EV_NO_ACTION)
    (hph : parse_header (d.drop index) = .ok (h, ev, n)) :
    parse_loop d (fuel + 1) st index =
      parse_loop d fuel
        { st with spec_id_header := some h, spec_id_header_event := some ev,
                  count := st.count + 1 } (index + n) := by
  simp [parse_loop, hlen, parse_step, h1, h2, himr, het, hph]

/-- C6 witness: a second header record parsed from a state whose registry
is `[(4, 20)]` replaces it with the new header's `[(4, 32)]`. -/
theorem claim_C6_witness :
    parse_loop (headerGood ++ term8) 1
        ⟨some (headerGood ++ term8), some expectedHeader,
          some ⟨sig16, 0, 0, 2, 0, 2, 1, [⟨4, 20⟩], 0, []⟩, [], 1⟩ 0 =
      parse_loop (headerGood ++ term8) 0
        ⟨some (headerGood ++ term8), some expectedHeader,
          some expectedSpecId, [], 2⟩ 65 :=
  claim_C6_later_header (headerGood ++ term8) 0
    ⟨some (headerGood ++ term8), some expectedHeader,
      some ⟨sig16, 0, 0, 2, 0, 2, 1, [⟨4, 20⟩], 0, []⟩, [], 1⟩
    0 0 4 3 8 65 expectedHeader expectedSpecId
    (by decide) (by decide) (by decide) (by decide) (by decide) rfl

/-- C9: `select` re-runs the full parse pass unconditionally.  For an
EventLog constructed over a buffer whose first `select` succeeds, a second
`select` (no windowing) appends every record again and adds the full
record count again: records and count are doubled, never left unchanged. -/
theorem claim_C9_select_reparses (d : List Nat) (st1 : TcgEventLog)
    (h : select (init (some d)) none none = (st1, none)) :
    select st1 none none =
      ({ st1 with event_logs := st1.event_logs ++ st1.event_logs,
                  count := st1.count + st1.count }, none) := by
  have hp : parse (init (some d)) = (st1, none) := by
    cases hP : parse (init (some d)) with
    | mk st0 e0 =>
      cases e0 with
      | none =>
        simp only [select, hP] at h
        injection h with ha _
        rw [ha]
      | some e =>
        simp only [select, hP] at h
        injection h with _ hb
        exact absurd hb (by simp)
  have hp' : parse_loop d d.length (⟨some d, none, none, [], 0⟩ :
      TcgEventLog) 0 = (st1, none) := hp
  have hd1 : st1.data = some d := by
    have h0 := parse_loop_data d d.length ⟨some d, none, none, [], 0⟩ 0
    rw [hp'] at h0
    simpa using h0
  obtain ⟨sd, sh, sρ, sl, sc⟩ := st1
  dsimp only at hd1
  subst hd1
  have hrep := parse_loop_replay d d.length 0 (some d) none sh sρ
    ⟨some d, sh, sρ, sl, sc⟩ hp' rfl rfl
  dsimp only at hrep
  have hps : parse (⟨some d, sh, sρ, sl, sc⟩ : TcgEventLog) =
      (⟨some d, sh, sρ, sl ++ sl, sc + sc⟩, none) := by
    show parse_loop d d.length ⟨some d, sh, sρ, sl, sc⟩ 0 = _
    rw [parse_loop_shift d d.length 0 (some d) sh sρ sl sc, hrep]
  simp only [select, hps]

/-- C9 witness: over `B8good` (one header + one measurement record), the
second `select(None, None)` doubles the stored records (1 → 2) and the
count (2 → 4). -/
theorem claim_C9_witness :
    select C9st1 none none =
      ({ C9st1 with event_logs := C9st1.event_logs ++ C9st1.event_logs,
                    count := C9st1.count + C9st1.count }, none) :=
  claim_C9_select_reparses B8good C9st1 rfl

/-- C7: when the registry holds several entries with the same algorithm id,
the digest size used for a digest tagged with that id is the one of the
first matching entry in declaration order (`next(...)` over
`digest_sizes`), regardless of the later duplicates. -/
theorem claim_C7_first_match (pre rest : List TcgEfiSpecIdEventAlgorithmSize)
    (e : TcgEfiSpecIdEventAlgorithmSize) (ev : TcgEfiSpecIdEvent)
    (data : List Nat) (i j k a : Nat) (ds : List Nat)
    (hreg : ev.digest_sizes = pre ++ e :: rest)
    (hpre : ∀ x ∈ pre, x.algo_id ≠ a)
    (he : e.algo_id = a)
    (hdup : ∃ y ∈ rest, y.algo_id = a)
    (h1 : getUint16 data i = some (a, j))
    (h2 : getBytes data j e.digest_size = some (ds, k)) :
    readDigests (some ev) data i 1 = .ok ([⟨a, ds⟩], k) ∧
    ds.length = e.digest_size := by
  have hfind : ev.digest_sizes.find? (fun alg => alg.algo_id == a) = some e := by
    rw [hreg]
    exact find?_append_first _ _ _ _
      (fun x hx => by simp [hpre x hx]) (by simp [he])
  exact ⟨by simp [readDigests, h1, hfind, h2],
    getBytes_length data j e.digest_size ds k h2⟩

/-- C7 witness: registry `[(7, 5), (4, 32), (4, 20)]` with duplicate id 4;
the digest tagged 4 is read with size 32 (the first match), not 20. -/
theorem claim_C7_witness :
    readDigests
        (some ⟨sig16, 0, 0, 2, 0, 2, 3, [⟨7, 5⟩, ⟨4, 32⟩, ⟨4, 20⟩], 0, []⟩)
        (u16le 4 ++ List.replicate 32 9) 0 1 =
      .ok ([⟨4, List.replicate 32 9⟩], 34) ∧
    (List.replicate 32 9).length = 32 :=
  claim_C7_first_match [⟨7, 5⟩] [⟨4, 20⟩] ⟨4, 32⟩
    ⟨sig16, 0, 0, 2, 0, 2, 3, [⟨7, 5⟩, ⟨4, 32⟩, ⟨4, 20⟩], 0, []⟩
    (u16le 4 ++ List.replicate 32 9) 0 2 34 4 (List.replicate 32 9)
    (by decide) (by decide) (by decide) ⟨⟨4, 20⟩, by decide⟩
    (by decide) (by decide)

end TcgEventLog

end EvidenceApi
